import Mathlib

/-!
Verification development for the RavGateway on-chain payment verification core.

The payment-verification logic of this repository lives in the TypeScript
snippets of `src/docs/BLOCKCHAIN.md` (sections "Network Configurations",
"Token Decimal Handling", "Transaction Verification") and
`src/docs/SECURITY.md` (sections "Non-Custodial Architecture" and
"Transaction Verification").  The definitions below are a shallow embedding
of those snippets:

* 160-bit addresses and 256-bit log topics are modelled as `Nat`; the
  case-insensitive hex-string comparison `a.toLowerCase() !== b.toLowerCase()`
  of two addresses is equality of the underlying numbers, and
  `ethers.getAddress('0x' + topic.slice(26))` (dropping the first 12 bytes of
  a 32-byte topic word) is `topic % 2 ^ 160`.
* `BigInt(log.data)` on a well-formed hex string yields its numeric value;
  on malformed data (e.g. the empty `"0x"`) it throws a `SyntaxError`.  A
  log's `data` field is therefore `Option Nat`, `none` standing for data on
  which `BigInt` throws.
* JavaScript exceptions become `Except.error`: each `throw new Error("...")`
  of the source maps to a named `VerifyError` constructor, and the untyped
  runtime errors (`TypeError` from `undefined.slice` when `topics[2]` is
  absent, `SyntaxError` from `BigInt` on malformed data) map to
  `VerifyError.typeError`.
* The RPC read `provider.getTransactionReceipt(txHash)` is abstracted by
  passing its result (`Option Receipt`) as an argument; the network's
  `rpcUrl` is used by the source only to build that provider.  The
  `confirmations` field of the success value (a second RPC read of the
  current block number) and the `formatUnits` decimal rendering of the
  amount are presentation of the returned object and are omitted; the raw
  integer amount is returned instead.
-/

set_option linter.unusedVariables false

namespace RavGateway

/-- The supported networks (`"base" | "celo"` in the source). -/
inductive Network where
  | base
  | celo
deriving DecidableEq, Repr

/-- A network's stablecoin entry (`stablecoin` in `BLOCKCHAIN.md`). -/
structure Stablecoin where
  address : Nat
  symbol : String
  decimals : Nat
deriving DecidableEq, Repr

/-- A chain configuration (`baseConfig` / `celoConfig` in `BLOCKCHAIN.md`). -/
structure NetworkConfig where
  name : String
  chainId : Nat
  rpcUrl : String
  explorer : String
  stablecoin : Stablecoin
deriving DecidableEq, Repr

/-- The static network registry `NETWORKS` of `BLOCKCHAIN.md`:
`baseConfig` (USDC at `0x833589fCD6eDb6E08f4c7C32D4f71b54bdA02913`, 6
decimals) and `celoConfig` (cUSD at
`0x765DE816845861e75A25fCA122bb6898B8B1282a`, 18 decimals). -/
def NETWORKS : Network → NetworkConfig
  | .base =>
    { name := "Base Mainnet"
      chainId := 0x2105
      rpcUrl := "https://mainnet.base.org"
      explorer := "https://basescan.org"
      stablecoin :=
        { address := 0x833589fCD6eDb6E08f4c7C32D4f71b54bdA02913
          symbol := "USDC"
          decimals := 6 } }
  | .celo =>
    { name := "Celo Mainnet"
      chainId := 0xa4ec
      rpcUrl := "https://forno.celo.org"
      explorer := "https://explorer.celo.org"
      stablecoin :=
        { address := 0x765DE816845861e75A25fCA122bb6898B8B1282a
          symbol := "cUSD"
          decimals := 18 } }

/-- One receipt log entry, as exposed by the chain RPC client: the emitting
contract `address`, the indexed `topics` (32-byte words), and the `data`
payload.  `data = none` models a data string on which `BigInt` throws. -/
structure Log where
  address : Nat
  topics : List Nat
  data : Option Nat
deriving DecidableEq, Repr

/-- A transaction receipt: `status` (`1` success, `0` execution failure),
the emitted `logs`, and the `blockNumber`. -/
structure Receipt where
  status : Nat
  logs : List Log
  blockNumber : Nat
deriving DecidableEq, Repr

/-- `ethers.id("Transfer(address,address,uint256)")`: the keccak-256 hash of
the ERC-20 Transfer event signature, used as `topics[0]` of a Transfer log. -/
def transferTopic : Nat :=
  0xddf252ad1be2c89b69c2b068fc378daa952ba7f163c4a11628f55a4df523b3ef

/-- The error taxonomy of the verifier, one constructor per thrown message:
`transactionNotFound` = `"Transaction not found"`, `transactionFailed` =
`"Transaction failed"`, `transferEventNotFound` = `"Transfer event not
found"`, `recipientMismatch` = `"Recipient mismatch"`, `amountMismatch` =
`"Amount mismatch"`.  `typeError` is the untyped runtime exception
(JavaScript `TypeError`/`SyntaxError`) raised when the decode step reads a
missing `topics[2]` or `BigInt` rejects the data string. -/
inductive VerifyError where
  | transactionNotFound
  | transactionFailed
  | transferEventNotFound
  | recipientMismatch
  | amountMismatch
  | typeError
deriving DecidableEq, Repr

/-- The success value of `verifyPayment` in `BLOCKCHAIN.md`: the echoed
`txHash`, the decoded `recipient` and `amount`, and the receipt's
`blockNumber`. -/
structure Verified where
  txHash : String
  recipient : Nat
  amount : Nat
  blockNumber : Nat
deriving DecidableEq, Repr

/-- `receipt.logs.find(log => log.topics[0] === transferTopic)`: the first
log whose first topic is the Transfer signature.  A log with no topics has
`topics[0] === undefined`, which compares unequal, so `head?` is faithful. -/
def findTransferLog (logs : List Log) : Option Log :=
  logs.find? fun log => log.topics.head? == some transferTopic

/-- Lines 325-334 of `BLOCKCHAIN.md`: decode `recipient` from `topics[2]`
and `amount` from `data`, then compare against the expected terms.  Reading
a missing `topics[2]` throws (`undefined.slice`), as does `BigInt` on
malformed data; both are `typeError` here and precede the comparisons, in
source order. -/
def decodeAndCheck (txHash : String) (expectedRecipient expectedAmount blockNumber : Nat)
    (log : Log) : Except VerifyError Verified :=
  match log.topics.get? 2 with
  | none => .error .typeError
  | some topic2 =>
    match log.data with
    | none => .error .typeError
    | some amount =>
      let recipient := topic2 % 2 ^ 160
      if recipient ≠ expectedRecipient then .error .recipientMismatch
      else if amount < expectedAmount then .error .amountMismatch
      else .ok { txHash := txHash, recipient := recipient, amount := amount,
                 blockNumber := blockNumber }

/-- `verifyPayment` of `BLOCKCHAIN.md` §Transaction Verification.  The
receipt argument is the result of `provider.getTransactionReceipt(txHash)`
on the network's RPC endpoint; `network` selects the `NETWORKS` entry (used
by the source for the provider URL and for the presentation-only
`formatUnits` call). -/
def verifyPayment (txHash : String) (expectedRecipient expectedAmount : Nat)
    (network : Network) (receipt? : Option Receipt) : Except VerifyError Verified :=
  match receipt? with
  | none => .error .transactionNotFound
  | some receipt =>
    if receipt.status = 0 then .error .transactionFailed
    else
      match findTransferLog receipt.logs with
      | none => .error .transferEventNotFound
      | some log =>
        decodeAndCheck txHash expectedRecipient expectedAmount receipt.blockNumber log

/-- `verifyPayment` of `SECURITY.md` §Transaction Verification.  Identical
to the `BLOCKCHAIN.md` version except that the first guard is
`if (!receipt || receipt.status === 0) throw new Error('Transaction failed')`
— a missing receipt and a failed execution share one error — and the
success value is the bare `true`. -/
def verifyPaymentSec (txHash : String) (expectedRecipient expectedAmount : Nat)
    (network : Network) (receipt? : Option Receipt) : Except VerifyError Bool :=
  match receipt? with
  | none => .error .transactionFailed
  | some receipt =>
    if receipt.status = 0 then .error .transactionFailed
    else
      match findTransferLog receipt.logs with
      | none => .error .transferEventNotFound
      | some log =>
        match log.topics.get? 2 with
        | none => .error .typeError
        | some topic2 =>
          match log.data with
          | none => .error .typeError
          | some amount =>
            let recipient := topic2 % 2 ^ 160
            if recipient ≠ expectedRecipient then .error .recipientMismatch
            else if amount < expectedAmount then .error .amountMismatch
            else .ok true

/-- The `TOKEN_DECIMALS` table of `BLOCKCHAIN.md` §Token Decimal Handling. -/
def TOKEN_DECIMALS : String → Option Nat
  | "USDC" => some 6
  | "USDT" => some 6
  | "cUSD" => some 18
  | "CELO" => some 18
  | _ => none

/-- `ethers.parseUnits(value.toString(), decimals)` for an integer-valued
amount: the decimal string of a `Nat` parses back exactly, scaled by
`10 ^ decimals`.  (The source's `usdAmount` is a JavaScript number whose
`toString()` round-trips; integer USD amounts are exact.) -/
def parseUnits (value : Nat) (decimals : Nat) : Nat :=
  value * 10 ^ decimals

/-- `parseAmount` of `BLOCKCHAIN.md`: look up the token's decimal count and
scale.  An unknown symbol gives `TOKEN_DECIMALS[sym] === undefined`, and
`ethers.parseUnits` falls back to its default of 18 decimals, hence `getD 18`. -/
def parseAmount (usdAmount : Nat) (tokenSymbol : String) : Nat :=
  parseUnits usdAmount ((TOKEN_DECIMALS tokenSymbol).getD 18)

/-- A row of the `invoices` table, restricted to the columns the mark-paid
write touches or the claims mention (`id`, `status`, `tx_hash`, `paid_at`,
`amount`; timestamps kept as strings as stored). -/
structure InvoiceRow where
  id : Nat
  status : String
  tx_hash : Option String
  paid_at : Option String
  amount : Nat
deriving DecidableEq, Repr

/-- The mark-paid write of `SECURITY.md` §Non-Custodial Architecture, step 3:
`supabase.from('invoices').update({ tx_hash: tx.hash, status: 'paid' }).eq('id', invoiceId)`.
Every row whose `id` matches gets `tx_hash` and `status` overwritten; there
is no status guard, no error path, and `paid_at` is not written. -/
def updateInvoicePaid (store : List InvoiceRow) (invoiceId : Nat) (txHash : String) :
    List InvoiceRow :=
  store.map fun row =>
    if row.id = invoiceId then { row with tx_hash := some txHash, status := "paid" }
    else row

/-- Input for the C1 evidence: a receipt whose only Transfer-signature log is
emitted by the unrelated contract `0xdead` — not the configured Base USDC
contract — yet whose recipient and amount match the invoice's terms. -/
def foreignTokenLog : Log :=
  { address := 0xdead, topics := [transferTopic, 0x11, 0xab], data := some 100000000 }

/-- Successful receipt carrying only `foreignTokenLog`. -/
def foreignTokenReceipt : Receipt :=
  { status := 1, logs := [foreignTokenLog], blockNumber := 42 }

/-- C1: the claim says `verifyPayment` only accepts a Transfer log emitted by
the network's configured stablecoin contract, rejecting a matching log from
any other address and failing with `TransferEventNotFound` when no log from
the configured contract matches.  The code never reads `log.address`: on a
receipt whose only Transfer-signature log is emitted by the unrelated
contract `0xdead`, verification succeeds. -/
theorem foreign_token_transfer_accepted :
    foreignTokenLog.address ≠ (NETWORKS .base).stablecoin.address ∧
    verifyPayment ("0xc1") 0xab 100000000 .base (some foreignTokenReceipt) =
      .ok { txHash := "0xc1", recipient := 0xab, amount := 100000000, blockNumber := 42 } :=
  ⟨by decide, by rfl⟩

/-- An already-paid invoice row (status `"paid"`, settled hash `"0xaaa"`). -/
def paidRow : InvoiceRow :=
  { id := 7, status := "paid", tx_hash := some ("0xaaa"),
    paid_at := some ("2026-01-01T00:00:00Z"), amount := 100 }

/-- C2: the claim says a mark-paid call with a different `txHash` on an
already-paid invoice always fails with `AlreadyPaidWithDifferentTx` and
leaves the stored `txHash` unchanged.  The mark-paid write in the source is
an unconditional update keyed only on `id`: replaying it with `"0xbbb"`
against the settled row overwrites the stored hash, and no error value
exists anywhere in the code. -/
theorem paid_invoice_txhash_overwritten :
    updateInvoicePaid [paidRow] 7 ("0xbbb") =
      [{ id := 7, status := "paid", tx_hash := some ("0xbbb"),
         paid_at := some ("2026-01-01T00:00:00Z"), amount := 100 }] ∧
    ∀ row ∈ updateInvoicePaid [paidRow] 7 ("0xbbb"), row.tx_hash ≠ paidRow.tx_hash := by
  decide

/-- An unpaid invoice row in status `"sent"` with `tx_hash` and `paid_at`
both unset. -/
def sentRow : InvoiceRow :=
  { id := 9, status := "sent", tx_hash := none, paid_at := none, amount := 50 }

/-- C3: the claim says `txHash` and `paidAt` are always both set or both
unset, and every paid invoice has both non-null, `paidAt` being written at
the same moment the status becomes paid.  The mark-paid write sets `status`
and `tx_hash` but never writes `paid_at`: marking a sent invoice paid
produces a paid row with `tx_hash` set and `paid_at` still null. -/
theorem paid_row_missing_paid_at :
    updateInvoicePaid [sentRow] 9 ("0xccc") =
      [{ id := 9, status := "paid", tx_hash := some ("0xccc"),
         paid_at := none, amount := 50 }] ∧
    ∀ row ∈ updateInvoicePaid [sentRow] 9 ("0xccc"),
      row.status = "paid" ∧ row.tx_hash.isSome = true ∧ row.paid_at = none := by
  decide

/-- The decode-and-check stage can only produce `typeError`,
`recipientMismatch`, `amountMismatch` or success. -/
theorem decodeAndCheck_cases (tx : String) (er ea bn : Nat) (log : Log) :
    decodeAndCheck tx er ea bn log = .error .typeError ∨
    decodeAndCheck tx er ea bn log = .error .recipientMismatch ∨
    decodeAndCheck tx er ea bn log = .error .amountMismatch ∨
    ∃ v, decodeAndCheck tx er ea bn log = .ok v := by
  unfold decodeAndCheck
  dsimp only
  repeat' first
    | exact Or.inl rfl
    | exact Or.inr (Or.inl rfl)
    | exact Or.inr (Or.inr (Or.inl rfl))
    | exact Or.inr (Or.inr (Or.inr ⟨_, rfl⟩))
    | split

/-- The decode-and-check stage never produces one of the receipt-stage
errors. -/
theorem decodeAndCheck_not_receipt_stage (tx : String) (er ea bn : Nat) (log : Log) :
    decodeAndCheck tx er ea bn log ≠ .error .transactionNotFound ∧
    decodeAndCheck tx er ea bn log ≠ .error .transactionFailed := by
  rcases decodeAndCheck_cases tx er ea bn log with h | h | h | ⟨v, h⟩ <;>
    rw [h] <;> exact ⟨by simp, by simp⟩

/-- C4: in the `BLOCKCHAIN.md` `verifyPayment`, `TransactionNotFound` is
returned exactly when the RPC yields no receipt, and `TransactionFailed`
exactly when a receipt exists with failure status — two distinct kinds.
But the repository's second implementation of the same function
(`SECURITY.md`) coerces a missing receipt into `TransactionFailed`
(`if (!receipt || receipt.status === 0) throw new Error('Transaction
failed')`), so the claim's "never coerced into one generic failure" is
contradicted by the code. -/
theorem missing_receipt_error_kinds :
    (∀ (tx : String) (er ea : Nat) (net : Network) (receipt? : Option Receipt),
        verifyPayment tx er ea net receipt? = .error .transactionNotFound ↔ receipt? = none) ∧
    (∀ (tx : String) (er ea : Nat) (net : Network) (r : Receipt),
        verifyPayment tx er ea net (some r) = .error .transactionFailed ↔ r.status = 0) ∧
    (∀ (tx : String) (er ea : Nat) (net : Network),
        verifyPaymentSec tx er ea net none = .error .transactionFailed) := by
  refine ⟨?_, ?_, fun tx er ea net => rfl⟩
  · intro tx er ea net receipt?
    cases receipt? with
    | none => simp [verifyPayment]
    | some r =>
      constructor
      · intro h
        exfalso
        simp only [verifyPayment] at h
        by_cases hst : r.status = 0
        · rw [if_pos hst] at h
          exact VerifyError.noConfusion (Except.error.inj h)
        · rw [if_neg hst] at h
          cases hf : findTransferLog r.logs with
          | none => rw [hf] at h; exact VerifyError.noConfusion (Except.error.inj h)
          | some log =>
            rw [hf] at h
            exact (decodeAndCheck_not_receipt_stage tx er ea r.blockNumber log).1 h
      · intro h
        exact absurd h (Option.some_ne_none r)
  · intro tx er ea net r
    simp only [verifyPayment]
    by_cases hst : r.status = 0
    · simp [hst]
    · rw [if_neg hst]
      constructor
      · intro h
        exfalso
        cases hf : findTransferLog r.logs with
        | none => rw [hf] at h; exact VerifyError.noConfusion (Except.error.inj h)
        | some log =>
          rw [hf] at h
          exact (decodeAndCheck_not_receipt_stage tx er ea r.blockNumber log).2 h
      · intro h
        exact absurd h hst

/-- C6: the mark-paid write is idempotent — applying it twice with the same
`(invoiceId, txHash)` yields the same store as applying it once, so a second
call changes nothing and signals no error (the update has no error path). -/
theorem updateInvoicePaid_idempotent (store : List InvoiceRow) (invoiceId : Nat) (tx : String) :
    updateInvoicePaid (updateInvoicePaid store invoiceId tx) invoiceId tx =
      updateInvoicePaid store invoiceId tx := by
  induction store with
  | nil => rfl
  | cons row rest ih =>
    simp only [updateInvoicePaid, List.map_cons] at *
    by_cases h : row.id = invoiceId <;> simp [h, ih]

/-- C5: on a receipt whose matching Transfer log decodes to the expected
recipient and amount `amt`, verification fails with `AmountMismatch` exactly
when `amt` is strictly below the expected smallest-unit amount: an equal
amount passes, one unit below fails, and any `amt ≥ ea` (overpayment) is
accepted. -/
theorem amount_boundary (adr s r amt bn ea : Nat) (tx : String) (hr : r < 2 ^ 160) :
    verifyPayment tx r ea .base
      (some { status := 1,
              logs := [{ address := adr, topics := [transferTopic, s, r], data := some amt }],
              blockNumber := bn }) =
      (if amt < ea then .error .amountMismatch
       else .ok { txHash := tx, recipient := r, amount := amt, blockNumber := bn }) := by
  simp only [verifyPayment, findTransferLog, List.find?, decodeAndCheck]
  rw [show (([transferTopic, s, r].head? == some transferTopic)) = true by simp]
  simp only [List.get?]
  rw [Nat.mod_eq_of_lt hr]
  simp

/-- Witness for C5 at the boundary: with expected amount 100, a transfer of
exactly 100 passes and a transfer of 99 fails with `AmountMismatch`. -/
theorem amount_boundary_witness :
    verifyPayment ("0xw5") 171 100 .base
      (some { status := 1,
              logs := [{ address := 5, topics := [transferTopic, 2, 171], data := some 100 }],
              blockNumber := 7 }) =
      .ok { txHash := "0xw5", recipient := 171, amount := 100, blockNumber := 7 } ∧
    verifyPayment ("0xw5") 171 100 .base
      (some { status := 1,
              logs := [{ address := 5, topics := [transferTopic, 2, 171], data := some 99 }],
              blockNumber := 7 }) =
      .error .amountMismatch := by
  constructor
  · rw [amount_boundary 5 2 171 100 7 100 ("0xw5") (by decide)]
    simp
  · rw [amount_boundary 5 2 171 99 7 100 ("0xw5") (by decide)]
    simp

/-- C7 counterexample: a log whose `topics[0]` matches the Transfer signature
but which has no `topics[2]` does not make `verifyPayment` fail with
`TransferEventNotFound` — the decode throws (`undefined.slice`), modelled as
`typeError`. -/
theorem malformed_transfer_log_throws :
    verifyPayment ("0xc7") 1 1 .base
      (some { status := 1,
              logs := [{ address := 3, topics := [transferTopic], data := some 0 }],
              blockNumber := 4 }) =
      .error .typeError ∧
    (Except.error .typeError : Except VerifyError Verified) ≠ .error .transferEventNotFound := by
  exact ⟨by rfl, by simp⟩

/-- C7 (amended): the decode step is not total.  A log matching the Transfer
signature but with fewer topics than the decode reads, or with data `BigInt`
cannot parse, makes `verifyPayment` throw a runtime type error
(`typeError`), not fail with `TransferEventNotFound`; the topic-count and
data validation of the claim is a replacement the spec mandates, not current
behaviour. -/
theorem malformed_transfer_log_typeError (tx : String) (er ea bn : Nat) (net : Network)
    (l : Log) (rest : List Log)
    (hsig : l.topics.head? = some transferTopic)
    (hmal : l.topics.length < 3 ∨ l.data = none) :
    verifyPayment tx er ea net (some { status := 1, logs := l :: rest, blockNumber := bn }) =
      .error .typeError := by
  have hfind : findTransferLog (l :: rest) = some l := by
    simp [findTransferLog, List.find?, hsig]
  simp only [verifyPayment, hfind]
  rw [if_neg (by decide)]
  unfold decodeAndCheck
  rcases hmal with hlen | hdata
  · have hnone : l.topics.get? 2 = none := by
      rw [List.get?_eq_none]
      omega
    rw [hnone]
  · cases hg : l.topics.get? 2 with
    | none => rfl
    | some t2 => rw [hdata]

/-- Witness for C7's amended theorem: a Transfer-signature log whose data
field is malformed yields `typeError`. -/
theorem malformed_transfer_log_typeError_witness :
    verifyPayment ("0xw7") 2 3 .celo
      (some { status := 1,
              logs := [{ address := 9, topics := [transferTopic, 5, 6], data := none }],
              blockNumber := 6 }) =
      .error .typeError :=
  malformed_transfer_log_typeError ("0xw7") 2 3 6 .celo
    { address := 9, topics := [transferTopic, 5, 6], data := none } [] (by rfl) (Or.inr rfl)

/-- C8: the USD-to-smallest-unit conversion is exact integer scaling by the
token's fixed decimal count — 6 for USDC on base, 18 for cUSD on celo — and
an invoice of 100 USD on base converts to exactly 100000000 smallest units;
the amount comparison `verifyPayment` performs against that value is the
integer comparison of the embedding, as the end-to-end scenario shows. -/
theorem parseAmount_exact :
    parseAmount 100 ("USDC") = 100000000 ∧
    (∀ n, parseAmount n ("USDC") = n * 10 ^ 6) ∧
    (∀ n, parseAmount n ("cUSD") = n * 10 ^ 18) ∧
    verifyPayment ("0xc8") 0xab (parseAmount 100 ((NETWORKS .base).stablecoin.symbol)) .base
      (some { status := 1,
              logs := [{ address := (NETWORKS .base).stablecoin.address,
                         topics := [transferTopic, 0x11, 0xab], data := some 100000000 }],
              blockNumber := 12 }) =
      .ok { txHash := "0xc8", recipient := 0xab, amount := 100000000, blockNumber := 12 } := by
  refine ⟨by rfl, fun n => by rfl, fun n => by rfl, by rfl⟩

/-- C9: verification is decided entirely by the first Transfer-signature log
in the receipt: when that log decodes to a wrong recipient, the verdict is
`RecipientMismatch` even though the very next log in the same receipt is a
Transfer whose recipient matches and whose amount covers the expected
value. -/
theorem first_transfer_log_decides (tx : String) (er ea bn : Nat)
    (adr1 s1 r1 a1 adr2 s2 r2 a2 : Nat) (rest : List Log)
    (h1 : r1 % 2 ^ 160 ≠ er) (h2 : r2 % 2 ^ 160 = er) (h3 : ea ≤ a2) :
    verifyPayment tx er ea .base
      (some { status := 1,
              logs := { address := adr1, topics := [transferTopic, s1, r1], data := some a1 } ::
                      { address := adr2, topics := [transferTopic, s2, r2], data := some a2 } ::
                      rest,
              blockNumber := bn }) =
      .error .recipientMismatch := by
  have hfind :
      findTransferLog
        ({ address := adr1, topics := [transferTopic, s1, r1], data := some a1 } ::
         { address := adr2, topics := [transferTopic, s2, r2], data := some a2 } :: rest) =
        some { address := adr1, topics := [transferTopic, s1, r1], data := some a1 } := by
    simp [findTransferLog, List.find?]
  simp only [verifyPayment, hfind]
  rw [if_neg (by decide)]
  unfold decodeAndCheck
  simp only [List.get?]
  rw [if_pos h1]

/-- Witness for C9: the first Transfer log pays recipient 6 (expected 5); the
second pays 5 the full amount; the verdict is still `RecipientMismatch`. -/
theorem first_transfer_log_decides_witness :
    verifyPayment ("0xw9") 5 10 .base
      (some { status := 1,
              logs := [{ address := 1, topics := [transferTopic, 7, 6], data := some 999 },
                       { address := 1, topics := [transferTopic, 8, 5], data := some 10 }],
              blockNumber := 2 }) =
      .error .recipientMismatch :=
  first_transfer_log_decides ("0xw9") 5 10 2 1 7 6 999 1 8 5 10 []
    (by decide) (by decide) (by decide)

/-- Replace the sender field of a log — `topics[1]` of an ERC-20 Transfer —
leaving the emitting address, all other topics and the data unchanged. -/
def setSender (l : Log) (s : Nat) : Log :=
  { l with topics := l.topics.set 1 s }

/-- Two log lists that differ only in the sender field of each log. -/
def sendersRewritten (logs logs' : List Log) : Prop :=
  List.Forall₂ (fun l l' => ∃ s, l' = setSender l s) logs logs'

/-- Rewriting the sender leaves `topics[0]` unchanged. -/
theorem setSender_head? (l : Log) (s : Nat) :
    (setSender l s).topics.head? = l.topics.head? := by
  cases h : l.topics with
  | nil => simp [setSender, h]
  | cons a t => simp [setSender, h]

/-- Rewriting the sender leaves `topics[2]` unchanged. -/
theorem setSender_get?_two (l : Log) (s : Nat) :
    (setSender l s).topics.get? 2 = l.topics.get? 2 := by
  cases h : l.topics with
  | nil => simp [setSender, h]
  | cons a t =>
    cases t with
    | nil => simp [setSender, h]
    | cons b t2 => simp [setSender, h]

/-- Rewriting the sender leaves the data payload unchanged. -/
theorem setSender_data (l : Log) (s : Nat) : (setSender l s).data = l.data := rfl

/-- The decode-and-check stage never looks at the sender. -/
theorem decodeAndCheck_setSender (tx : String) (er ea bn s : Nat) (l : Log) :
    decodeAndCheck tx er ea bn (setSender l s) = decodeAndCheck tx er ea bn l := by
  simp only [decodeAndCheck, setSender_get?_two, setSender_data]

/-- Unfolding equation for `findTransferLog` on a non-empty list. -/
theorem findTransferLog_cons (a : Log) (l : List Log) :
    findTransferLog (a :: l) =
      if a.topics.head? == some transferTopic then some a else findTransferLog l := by
  cases hp : (a.topics.head? == some transferTopic) <;>
    simp [findTransferLog, List.find?, hp]

/-- The Transfer-log search commutes with rewriting senders: either both
lists have no Transfer-signature log, or both find one, and the two finds
differ only in the sender field. -/
theorem findTransferLog_sendersRewritten :
    ∀ {logs logs' : List Log}, sendersRewritten logs logs' →
      (findTransferLog logs = none ∧ findTransferLog logs' = none) ∨
      ∃ l s, findTransferLog logs = some l ∧ findTransferLog logs' = some (setSender l s) := by
  intro logs logs' h
  unfold sendersRewritten at h
  induction h with
  | nil => exact Or.inl ⟨rfl, rfl⟩
  | cons hrel htail ih =>
    rename_i a b l1 l2
    obtain ⟨s, rfl⟩ := hrel
    rw [findTransferLog_cons, findTransferLog_cons, setSender_head?]
    cases hp : (a.topics.head? == some transferTopic) with
    | true => exact Or.inr ⟨a, s, by simp, by simp⟩
    | false =>
      simp only [Bool.false_eq_true, if_false]
      exact ih

/-- C10: the verdict is independent of the payment's sender.  For any two
receipts that agree on status and block number and whose logs differ only in
the sender field (`topics[1]`), `verifyPayment` returns the same result:
nothing in the verifier reads who sent the transfer. -/
theorem verdict_independent_of_sender (tx : String) (er ea : Nat) (net : Network)
    (st bn : Nat) (logs logs' : List Log) (h : sendersRewritten logs logs') :
    verifyPayment tx er ea net (some { status := st, logs := logs, blockNumber := bn }) =
      verifyPayment tx er ea net (some { status := st, logs := logs', blockNumber := bn }) := by
  simp only [verifyPayment]
  rcases findTransferLog_sendersRewritten h with ⟨hn, hn'⟩ | ⟨l, s, hsome, hsome'⟩
  · simp only [hn, hn']
  · simp only [hsome, hsome', decodeAndCheck_setSender]

/-- Witness for C10: two single-log receipts whose Transfer logs differ only
in the sender word receive the same verdict. -/
theorem verdict_independent_of_sender_witness :
    verifyPayment ("0xw10") 5 10 .base
      (some { status := 1,
              logs := [{ address := 8, topics := [transferTopic, 1, 5], data := some 10 }],
              blockNumber := 3 }) =
      verifyPayment ("0xw10") 5 10 .base
        (some { status := 1,
                logs := [{ address := 8, topics := [transferTopic, 2, 5], data := some 10 }],
                blockNumber := 3 }) :=
  verdict_independent_of_sender ("0xw10") 5 10 .base 1 3 _ _
    (List.Forall₂.cons ⟨2, rfl⟩ List.Forall₂.nil)

end RavGateway
